import Mathlib

/-!
Verification of the parcel address-matching and spatial-neighborhood-extraction
engine of the kozu-pick repository.

The embedding follows `src/src/kozu_extractor.py` (`KozuWebExtractor.extract_data`)
and `src/src/file_processors.py` (`FileProcessor._normalize_area_name`,
`FileProcessor._convert_area_code`, and the district-column resolution of
`FileProcessor._extract_area_data_from_gdf`).

Modelling conventions:
* A dataset (`GeoDataFrame`) is a list of rows plus per-column presence flags
  (pandas `col in gdf.columns`) and an optional CRS.
* Cell values are `Option String` (`none` = NaN/null); a pandas equality test
  `gdf[col] == v` against a string `v` is `cell = some v` (NaN compares false).
* Parcel geometries are modelled as axis-aligned rectangles over `ℚ`.  The
  shapely centroid of a rectangle is its center, and
  `geopandas.overlay(how='intersection')` keeps (for rectangle inputs) exactly
  the pairs whose intersection has positive area: `keep_geom_type` drops the
  lower-dimensional (point or segment) intersections produced by mere boundary
  contact.  `overlay` also replaces each output row's geometry by the clipped
  intersection polygon; this does not affect which parcels appear, and the
  embedding keeps the source rows.
-/

namespace KozuPick

/-- An axis-aligned rectangle, the geometry model for one parcel polygon. -/
structure Rect where
  x1 : ℚ
  y1 : ℚ
  x2 : ℚ
  y2 : ℚ
deriving DecidableEq

/-- One dataset record: the address columns used by `extract_data`
(大字名, 丁目名, 小字名, 地番) and the geometry; `none` models a null cell. -/
structure Row where
  oaza : Option String
  chome : Option String
  koaza : Option String
  chiban : Option String
  geometry : Option Rect
deriving DecidableEq

/-- The loaded dataset: rows, column-presence flags, and the CRS
(`gdf.crs`, `none` when undefined). -/
structure GeoDataFrame where
  rows : List Row
  hasOazaCol : Bool
  hasChomeCol : Bool
  hasKoazaCol : Bool
  hasChibanCol : Bool
  hasGeomCol : Bool
  crs : Option String
deriving DecidableEq

/-- Shapely centroid of a rectangle: its center point. -/
def centroid (g : Rect) : ℚ × ℚ :=
  ((g.x1 + g.x2) / 2, (g.y1 + g.y2) / 2)

/-- The square search window around a center point with half-width `rangeM`. -/
def searchRect (c : ℚ × ℚ) (rangeM : ℚ) : Rect :=
  ⟨c.1 - rangeM, c.2 - rangeM, c.1 + rangeM, c.2 + rangeM⟩

/-- The four corner points exactly as `extract_data` builds them
(lines 232-252): `i1..i4` from the centroid, the swapped assignments
`x1, y1 = i3, i1` and `x2, y2 = i4, i2`, the four `[lon, lat]` rows
`top_right, lower_left, lower_right, top_left`, and finally
`Point(xy) for xy in zip(points.lat, points.lon)`, which builds each
shapely point as `(lat, lon)`. -/
def windowPoints (cx cy rangeM : ℚ) : List (ℚ × ℚ) :=
  let i1 := cx + rangeM
  let i2 := cx - rangeM
  let i3 := cy + rangeM
  let i4 := cy - rangeM
  let x1 := i3
  let y1 := i1
  let x2 := i4
  let y2 := i2
  [(y1, x1), (y2, x2), (y2, x1), (y1, x2)]

/-- The search-window polygon: `four_points_gdf.dissolve().convex_hull`. -/
def windowHull (cx cy rangeM : ℚ) : Set (ℚ × ℚ) :=
  convexHull ℚ {p | p ∈ windowPoints cx cy rangeM}

/-- The point set of a rectangle. -/
def rectSet (g : Rect) : Set (ℚ × ℚ) :=
  Set.Icc g.x1 g.x2 ×ˢ Set.Icc g.y1 g.y2

/-- Positive-area intersection test of two rectangles; this is what
`overlay(how='intersection')` keeps for rectangle inputs (boundary-only
contact yields a lower-dimensional geometry, dropped by `keep_geom_type`). -/
def rectIntersects (a b : Rect) : Bool :=
  (max a.x1 b.x1 < min a.x2 b.x2) && (max a.y1 b.y1 < min a.y2 b.y2)

/-- One optional-field conjunct of the search condition (lines 179-184): the
equality test on 丁目名 (resp. 小字名) participates only when the query value
is present (`is not None`), differs from the sentinel `"選択なし"`, and the
column exists in the dataset. -/
def optMatch (q : Option String) (hasCol : Bool) (v : Option String) : Bool :=
  match q with
  | none => true
  | some s => if s != "選択なし" && hasCol then (v == some s) && v.isSome else true

/-- The conjunctive search condition of `extract_data` (lines 170-184). -/
def searchCondition (gdf : GeoDataFrame) (oaza : String) (chome koaza : Option String)
    (chiban : String) (x : Row) : Bool :=
  (x.oaza == some oaza) && (x.chiban == some chiban) &&
    x.oaza.isSome && x.chiban.isSome &&
    optMatch chome gdf.hasChomeCol x.chome &&
    optMatch koaza gdf.hasKoazaCol x.koaza

/-- The per-field match counts reported when the filter comes back empty
(lines 188-205). -/
structure Diagnostics where
  oazaMatches : Nat
  chibanMatches : Nat
  chomeMatches : Option Nat
  koazaMatches : Option Nat
deriving DecidableEq

/-- pandas `gdf[gdf[col] == v][col].count()`: filter the rows by the equality
test, then count the non-null entries of that same column among them. -/
def eqCountNonNull (vals : List (Option String)) (v : String) : Nat :=
  ((vals.filter (fun o => o == some v)).filter (fun o => o.isSome)).length

/-- Python truthiness of an optional string (`if chome` is false for `None`
and for the empty string). -/
def truthy : Option String → Bool
  | none => false
  | some s => s != ""

/-- The diagnostics computed on an empty match (lines 188-203): independent
counts for 大字名 and 地番, plus 丁目名/小字名 counts when the query value is
truthy, not the sentinel, and the column exists. -/
def mkDiagnostics (gdf : GeoDataFrame) (oaza : String) (chome koaza : Option String)
    (chiban : String) : Diagnostics where
  oazaMatches := eqCountNonNull (gdf.rows.map (·.oaza)) oaza
  chibanMatches := eqCountNonNull (gdf.rows.map (·.chiban)) chiban
  chomeMatches :=
    if truthy chome && (chome != some "選択なし") && gdf.hasChomeCol then
      some (eqCountNonNull (gdf.rows.map (·.chome)) (chome.getD ""))
    else none
  koazaMatches :=
    if truthy koaza && (koaza != some "選択なし") && gdf.hasKoazaCol then
      some (eqCountNonNull (gdf.rows.map (·.koaza)) (koaza.getD ""))
    else none

/-- The `valid_data` frame (line 263): the rows with non-null 地番 and non-null geometry. -/
def validData (gdf : GeoDataFrame) : List Row :=
  gdf.rows.filter (fun x => x.chiban.isSome && x.geometry.isSome)

/-- The neighbor rows: `df1.overlay(df2, how='intersection')` (line 277) keeps
those valid rows whose geometry has a positive-area intersection with the
search window. -/
def neighborsList (gdf : GeoDataFrame) (c : ℚ × ℚ) (rangeM : ℚ) : List Row :=
  (validData gdf).filter (fun x =>
    match x.geometry with
    | some g => rectIntersects (searchRect c rangeM) g
    | none => false)

/-- The distinct failure exits of `extract_data`.  `crsError` models the
`ValueError` that `df1.set_crs(gdf.crs)` (line 260) raises when `gdf.crs` is
`None`; the blanket `except` turns it into an error-message return. -/
inductive ExtractError where
  | missingColumns (missing : List String)
  | noMatch (diag : Diagnostics)
  | missingGeometryColumn
  | nullGeometry
  | crsError
deriving DecidableEq

/-- The result of `extract_data`: either `(df_summary, overlay_gdf, summary)`
or `(None, None, error message)`. -/
inductive ExtractResult where
  | ok (targets neighbors : List Row) (summary : String)
  | err (e : ExtractError)
deriving DecidableEq

/-- The success message `f"対象筆: {n}件, 周辺筆: {m}件"` (line 279). -/
def countSummary (t n : Nat) : String :=
  "対象筆: " ++ toString t ++ "件, 周辺筆: " ++ toString n ++ "件"

/-- The missing-required-columns list `[col for col in ['大字名', '地番'] if col not in gdf.columns]` (line 154). -/
def requiredMissing (gdf : GeoDataFrame) : List String :=
  (if gdf.hasOazaCol then [] else ["大字名"]) ++
    (if gdf.hasChibanCol then [] else ["地番"])

/-- Embedding of `KozuWebExtractor.extract_data` (lines 149-282).  The purely informational
NULL-count warning of lines 159-168 has no effect on the result and is not
modelled.  The geometry-column and null-geometry checks (lines 220-224) run on
the matched rows before the centroid computation; the window is built from the
centroid of the first matched row (`.iloc[0]`, lines 238-239). -/
def extractData (gdf : GeoDataFrame) (oaza : String) (chome koaza : Option String)
    (chiban : String) (rangeM : ℚ) : ExtractResult :=
  if requiredMissing gdf ≠ [] then .err (.missingColumns (requiredMissing gdf))
  else
    match gdf.rows.filter (searchCondition gdf oaza chome koaza chiban) with
    | [] => .err (.noMatch (mkDiagnostics gdf oaza chome koaza chiban))
    | r0 :: rest =>
      if gdf.hasGeomCol = false then .err .missingGeometryColumn
      else if (r0 :: rest).any (fun x => x.geometry.isNone) then .err .nullGeometry
      else
        match r0.geometry with
        | none => .err .nullGeometry
        | some g0 =>
          if gdf.crs.isNone then .err .crsError
          else
            let nbrs := neighborsList gdf (centroid g0) rangeM
            .ok (r0 :: rest) nbrs (countSummary (r0 :: rest).length nbrs.length)

/-! ### Column-role resolution and name normalization (`src/src/file_processors.py`) -/

/-- ASCII lower-casing of one character (Python `str.lower()` on the
ASCII range; the Japanese keywords are unaffected by lower-casing). -/
def charLower (c : Char) : Char :=
  if 'A' ≤ c && c ≤ 'Z' then Char.ofNat (c.toNat + 32) else c

/-- Python `str.lower()`. -/
def strLower (s : String) : String :=
  ⟨s.data.map charLower⟩

/-- Python `str.strip()`: drop whitespace from both ends. -/
def strTrim (s : String) : String :=
  ⟨((s.data.dropWhile (·.isWhitespace)).reverse.dropWhile (·.isWhitespace)).reverse⟩

/-- Python `int(...)` on a digit string. -/
def digitsVal (l : List Char) : Nat :=
  l.foldl (fun n c => n * 10 + (c.toNat - '0'.toNat)) 0

/-- Whether `needle` is a prefix of `hay` (on character lists). -/
def startsWithL : List Char → List Char → Bool
  | [], _ => true
  | _ :: _, [] => false
  | a :: as, b :: bs => a == b && startsWithL as bs

/-- Whether `needle` occurs contiguously inside `hay`. -/
def occursIn (needle : List Char) : List Char → Bool
  | [] => needle.isEmpty
  | c :: rest => startsWithL needle (c :: rest) || occursIn needle rest

/-- Python's substring test `needle in hay`. -/
def containsKW (hay needle : String) : Bool :=
  occursIn needle.data hay.data

/-- The 大字名-column keyword→priority table of
`FileProcessor._extract_area_data_from_gdf` (lines 373-383). -/
def oazaKeywords : List (String × Nat) :=
  [("大字", 10), ("oaza", 9), ("町名", 8), ("地区名", 7), ("区域", 6),
    ("name", 5), ("名称", 5), ("地域", 4), ("area", 3)]

/-- The per-column score (lines 389-394): the running maximum over all
keywords occurring as substrings of the lower-cased column name. -/
def fieldPriority (keywords : List (String × Nat)) (col : String) : Nat :=
  keywords.foldl (fun acc kp => if containsKW (strLower col) kp.1 then max acc kp.2 else acc) 0

/-- Whether any keyword of the table occurs in the lower-cased column name. -/
def hasKeyword (keywords : List (String × Nat)) (col : String) : Bool :=
  keywords.any (fun kp => containsKW (strLower col) kp.1)

/-- First element of a stable descending sort by priority: keeps the earlier
candidate unless a later one scores strictly higher.  This is
`sorted(key=priority, reverse=True)[0]` of Python's stable sort
(lines 400-406), folded into a single pass. -/
def pickBest : List (String × Nat) → Option (String × Nat)
  | [] => none
  | x :: rest =>
    match pickBest rest with
    | none => some x
    | some y => if x.2 < y.2 then some y else some x

/-- The candidate list (lines 385-397): every non-geometry column with a
positive keyword priority, in column order. -/
def oazaCandidates (fields : List String) : List (String × Nat) :=
  ((fields.filter (fun f => f != "geometry")).map
      (fun f => (f, fieldPriority oazaKeywords f))).filter (fun cp => 0 < cp.2)

/-- District-column resolution (lines 371-407): best-scoring candidate, or
`none` (the `return None` of line 404) when no column matches any keyword. -/
def resolveOazaColumn (fields : List String) : Option (String × Nat) :=
  pickBest (oazaCandidates fields)

/-- Single-pass form of `resolveOazaColumn`, used for the inductive proofs. -/
def resolveOazaRec : List String → Option (String × Nat)
  | [] => none
  | f :: rest =>
    if f = "geometry" then resolveOazaRec rest
    else if fieldPriority oazaKeywords f = 0 then resolveOazaRec rest
    else
      match resolveOazaRec rest with
      | none => some (f, fieldPriority oazaKeywords f)
      | some y => if fieldPriority oazaKeywords f < y.2 then some y
                  else some (f, fieldPriority oazaKeywords f)

/-- Python `str.isdigit()`: non-empty and all digits. -/
def isDigitStr (s : String) : Bool :=
  !s.data.isEmpty && s.data.all (·.isDigit)

/-- Python `str.zfill(2)` for the unsigned codes used here. -/
def zfill2 (s : String) : String :=
  if s.length < 2 then String.mk (List.replicate (2 - s.length) '0' ++ s.data) else s

/-- The fixed code→name table of `FileProcessor._convert_area_code`
(lines 84-110). -/
def okinawaPatterns : List (String × String) :=
  [("01", "那覇"), ("02", "首里"), ("03", "真嘉比"), ("04", "泊"),
    ("05", "久茂地"), ("06", "牧志"), ("07", "安里"), ("08", "上原"),
    ("09", "古島"), ("10", "銘苅"), ("11", "宮里"), ("12", "普天間"),
    ("13", "内間"), ("14", "経塚"), ("15", "港川"), ("16", "牧港"),
    ("21", "大山"), ("22", "宜野湾"), ("23", "新城"), ("24", "我如古"),
    ("25", "嘉数"), ("26", "真栄原")]

/-- Embedding of `FileProcessor._convert_area_code` (lines 80-125): look the code up
zero-padded first, then as given; pass it through unchanged otherwise. -/
def convertAreaCode (code : String) : String :=
  match okinawaPatterns.lookup (zfill2 code) with
  | some nm => nm
  | none =>
    match okinawaPatterns.lookup code with
    | some nm => nm
    | none => code

/-- Embedding of `FileProcessor._normalize_area_name` (lines 47-78) on a non-null input
(the null/NaN guard of line 50 maps missing values to `""`). -/
def normalizeAreaName (name : String) : String :=
  let nameStr := strTrim name
  if nameStr = "" || strLower nameStr = "nan" then ""
  else if isDigitStr nameStr then
    if digitsVal nameStr.data ≤ 20 then nameStr ++ "丁目"
    else convertAreaCode nameStr
  else
    let converted := convertAreaCode nameStr
    if converted ≠ nameStr then converted else nameStr

/-- Spec-side formulation of one optional-field conjunct: the equality
constraint applies exactly when the query value is supplied, is not the
sentinel, and the column exists. -/
def optQueryPred (q : Option String) (hasCol : Bool) (v : Option String) : Prop :=
  match q with
  | some s => if s ≠ "選択なし" ∧ hasCol = true then v = some s else True
  | none => True

/-- Spec-side formulation of one optional diagnostics entry: when the field
was queried with a truthy, non-sentinel value and its column exists, the
reported count is exactly `cnt v`; an unqueried field reports nothing. -/
def diagClause (q : Option String) (hasCol : Bool) (reported : Option Nat)
    (cnt : String → Nat) : Prop :=
  match q with
  | some v => (v ≠ "" ∧ v ≠ "選択なし" ∧ hasCol = true) → reported = some (cnt v)
  | none => reported = none

/-! ### Concrete datasets used by the witnesses and counterexamples -/

/-- Parcel (district A, no 丁目/小字, 地番 5) with the unit square at the
origin. -/
def wRow1 : Row := ⟨some "A", none, none, some "5", some ⟨0, 0, 1, 1⟩⟩

/-- A second parcel with the same address as `wRow1` but far away. -/
def wRow2 : Row := ⟨some "A", none, none, some "5", some ⟨100, 100, 101, 101⟩⟩

/-- A parcel with a different address adjacent to `wRow1`. -/
def wRow3 : Row := ⟨some "B", none, none, some "7", some ⟨1, 1, 2, 2⟩⟩

/-- A fully null record. -/
def wRow4 : Row := ⟨none, none, none, none, none⟩

/-- The working dataset: all columns present, CRS defined. -/
def dsW : GeoDataFrame := ⟨[wRow1, wRow2, wRow3, wRow4], true, true, true, true, true, some "EPSG:2456"⟩

/-- A parcel whose district is stored as the numeric area code `"21"`. -/
def c4Row : Row := ⟨some "21", none, none, some "100", some ⟨0, 0, 1, 1⟩⟩

/-- Dataset for the normalization claim. -/
def dsC4 : GeoDataFrame := ⟨[c4Row], true, false, false, true, true, some "EPSG:2456"⟩

/-- A row matching only the queried district. -/
def c5Row1 : Row := ⟨some "01", none, none, some "9", none⟩

/-- A row matching only the queried parcel number. -/
def c5Row2 : Row := ⟨some "02", none, none, some "100", none⟩

/-- Dataset for the diagnostics claim: no row matches district and parcel
number together. -/
def dsC5 : GeoDataFrame := ⟨[c5Row1, c5Row2], true, false, false, true, true, some "EPSG:2456"⟩

/-- A matched record with valid geometry. -/
def c8RowOk : Row := ⟨some "A", none, none, some "1", some ⟨0, 0, 1, 1⟩⟩

/-- A record satisfying the same address filter but with null geometry. -/
def c8RowNull : Row := ⟨some "A", none, none, some "1", none⟩

/-- Dataset for the null-geometry claim. -/
def dsC8 : GeoDataFrame := ⟨[c8RowOk, c8RowNull], true, false, false, true, true, some "EPSG:2456"⟩

end KozuPick
namespace KozuPick

lemma rectIntersects_iff {a b : Rect} : rectIntersects a b = true ↔
    ((a.x1 < a.x2 ∧ a.x1 < b.x2 ∧ b.x1 < a.x2 ∧ b.x1 < b.x2) ∧
     (a.y1 < a.y2 ∧ a.y1 < b.y2 ∧ b.y1 < a.y2 ∧ b.y1 < b.y2)) := by
  simp [rectIntersects, max_lt_iff, lt_min_iff]
  tauto

lemma rectIntersects_mono {c : ℚ × ℚ} {r1 r2 : ℚ} (h : r1 ≤ r2) {g : Rect}
    (hi : rectIntersects (searchRect c r1) g = true) :
    rectIntersects (searchRect c r2) g = true := by
  rw [rectIntersects_iff] at hi ⊢
  simp only [searchRect] at hi ⊢
  obtain ⟨⟨a1, a2, a3, a4⟩, b1, b2, b3, b4⟩ := hi
  refine ⟨⟨by linarith, by linarith, by linarith, a4⟩, by linarith, by linarith, by linarith, b4⟩

lemma rectIntersects_self {g : Rect} {r : ℚ} (hx : g.x1 < g.x2) (hy : g.y1 < g.y2)
    (hr : 0 < r) : rectIntersects (searchRect (centroid g) r) g = true := by
  rw [rectIntersects_iff]
  simp only [searchRect, centroid]
  refine ⟨⟨by linarith, by linarith, by linarith, hx⟩, by linarith, by linarith, by linarith, hy⟩

lemma neighborsList_mono {gdf : GeoDataFrame} {c : ℚ × ℚ} {r1 r2 : ℚ} (h : r1 ≤ r2) :
    ∀ x ∈ neighborsList gdf c r1, x ∈ neighborsList gdf c r2 := by
  intro x hx
  rw [neighborsList, List.mem_filter] at hx ⊢
  refine ⟨hx.1, ?_⟩
  cases hgx : x.geometry with
  | none => simp [hgx] at hx
  | some g =>
    simp only [hgx] at hx ⊢
    exact rectIntersects_mono h hx.2

lemma beq_some_and_isSome_iff {v : Option String} {s : String} :
    ((v == some s) && v.isSome) = true ↔ v = some s := by
  constructor
  · intro h
    have := (Bool.and_eq_true _ _).mp h
    simpa using this.1
  · intro h
    subst h
    simp

lemma optMatch_iff {q : Option String} {hasCol : Bool} {v : Option String} :
    optMatch q hasCol v = true ↔ optQueryPred q hasCol v := by
  cases q with
  | none => simp [optMatch, optQueryPred]
  | some s =>
    simp only [optMatch, optQueryPred]
    by_cases hs : s = "選択なし"
    · simp [hs]
    · cases hasCol with
      | false => simp [hs]
      | true =>
        rw [if_pos (show ((s != "選択なし") && true) = true by simp [hs]),
          if_pos (show s ≠ "選択なし" ∧ true = true from ⟨hs, rfl⟩)]
        exact beq_some_and_isSome_iff

lemma searchCondition_iff {gdf : GeoDataFrame} {oaza : String} {chome koaza : Option String}
    {chiban : String} {x : Row} :
    searchCondition gdf oaza chome koaza chiban x = true ↔
      (x.oaza = some oaza ∧ x.chiban = some chiban ∧
        optQueryPred chome gdf.hasChomeCol x.chome ∧
        optQueryPred koaza gdf.hasKoazaCol x.koaza) := by
  simp only [searchCondition, Bool.and_eq_true, beq_iff_eq]
  constructor
  · rintro ⟨⟨⟨⟨⟨h1, h2⟩, -⟩, -⟩, h5⟩, h6⟩
    exact ⟨h1, h2, optMatch_iff.mp h5, optMatch_iff.mp h6⟩
  · rintro ⟨h1, h2, h5, h6⟩
    exact ⟨⟨⟨⟨⟨h1, h2⟩, by simp [h1]⟩, by simp [h2]⟩, optMatch_iff.mpr h5⟩, optMatch_iff.mpr h6⟩

end KozuPick
namespace KozuPick

lemma extractData_ok_of {gdf : GeoDataFrame} {oaza : String} {chome koaza : Option String}
    {chiban : String} {rangeM : ℚ} {r0 : Row} {rest : List Row} {g0 : Rect}
    (hmiss : requiredMissing gdf = [])
    (hfilt : gdf.rows.filter (searchCondition gdf oaza chome koaza chiban) = r0 :: rest)
    (hgeom : gdf.hasGeomCol = true)
    (hnull : (r0 :: rest).any (fun x => x.geometry.isNone) = false)
    (hg0 : r0.geometry = some g0)
    (hcrs : gdf.crs.isNone = false) :
    extractData gdf oaza chome koaza chiban rangeM =
      .ok (r0 :: rest) (neighborsList gdf (centroid g0) rangeM)
        (countSummary (r0 :: rest).length (neighborsList gdf (centroid g0) rangeM).length) := by
  unfold extractData
  simp only [hmiss, hfilt, hgeom, hnull, hg0, hcrs, ne_eq, not_true_eq_false, if_false,
    Bool.false_eq_true, ite_false]
  simp

theorem extractData_ok_inv {gdf : GeoDataFrame} {oaza : String} {chome koaza : Option String}
    {chiban : String} {rangeM : ℚ} {t n : List Row} {s : String}
    (h : extractData gdf oaza chome koaza chiban rangeM = .ok t n s) :
    requiredMissing gdf = [] ∧
    t = gdf.rows.filter (searchCondition gdf oaza chome koaza chiban) ∧
    gdf.hasGeomCol = true ∧
    (t.any fun x => x.geometry.isNone) = false ∧
    gdf.crs.isNone = false ∧
    ∃ r0 rest g0, t = r0 :: rest ∧ r0.geometry = some g0 ∧
      n = neighborsList gdf (centroid g0) rangeM ∧
      s = countSummary t.length n.length := by
  unfold extractData at h
  split at h
  · exact absurd h (by simp)
  next hmiss =>
    rw [ne_eq, not_not] at hmiss
    split at h
    · exact absurd h (by simp)
    next r0 rest hfilt =>
      split at h
      · exact absurd h (by simp)
      next hgeom =>
        rw [Bool.not_eq_false] at hgeom
        split at h
        · exact absurd h (by simp)
        next hnull =>
          rw [Bool.not_eq_true] at hnull
          split at h
          · exact absurd h (by simp)
          next g0 hg0 =>
            split at h
            · exact absurd h (by simp)
            next hcrs =>
              rw [Bool.not_eq_true] at hcrs
              rw [ExtractResult.ok.injEq] at h
              obtain ⟨h1, h2, h3⟩ := h
              subst h1
              refine ⟨hmiss, hfilt.symm, hgeom, hnull, hcrs,
                r0, rest, g0, rfl, hg0, h2.symm, ?_⟩
              rw [← h3, ← h2]

theorem extractData_noMatch_inv {gdf : GeoDataFrame} {oaza : String} {chome koaza : Option String}
    {chiban : String} {rangeM : ℚ} {d : Diagnostics}
    (h : extractData gdf oaza chome koaza chiban rangeM = .err (.noMatch d)) :
    d = mkDiagnostics gdf oaza chome koaza chiban ∧
    gdf.rows.filter (searchCondition gdf oaza chome koaza chiban) = [] ∧
    requiredMissing gdf = [] := by
  unfold extractData at h
  split at h
  · exact absurd h (by simp)
  next hmiss =>
    rw [ne_eq, not_not] at hmiss
    split at h
    next hfilt =>
      rw [ExtractResult.err.injEq, ExtractError.noMatch.injEq] at h
      exact ⟨h.symm, hfilt, hmiss⟩
    next r0 rest hfilt =>
      split at h
      · exact absurd h (by simp)
      split at h
      · exact absurd h (by simp)
      split at h
      · exact absurd h (by simp)
      split at h
      · exact absurd h (by simp)
      · exact absurd h (by simp)

lemma eqCountNonNull_cons (o : Option String) (rest : List (Option String)) (v : String) :
    eqCountNonNull (o :: rest) v =
      (if o == some v then 1 else 0) + eqCountNonNull rest v := by
  unfold eqCountNonNull
  cases ho : (o == some v) with
  | true =>
    have hov : o = some v := by simpa using ho
    simp [List.filter_cons, ho, hov]
    omega
  | false => simp [List.filter_cons, ho]

lemma eqCountNonNull_map (rows : List Row) (f : Row → Option String) (v : String) :
    eqCountNonNull (rows.map f) v = (rows.filter (fun x => f x == some v)).length := by
  induction rows with
  | nil => rfl
  | cons a l ih =>
    rw [List.map_cons, eqCountNonNull_cons, ih, List.filter_cons]
    cases hfa : (f a == some v) <;> simp [hfa]
    omega

end KozuPick
namespace KozuPick

lemma foldl_max_shift (col : String) (kw : List (String × Nat)) (a : Nat) :
    kw.foldl (fun acc kp => if containsKW (strLower col) kp.1 then max acc kp.2 else acc) a =
      max a (fieldPriority kw col) := by
  induction kw generalizing a with
  | nil => simp [fieldPriority]
  | cons kp l ih =>
    unfold fieldPriority
    simp only [List.foldl_cons]
    cases hc : containsKW (strLower col) kp.1 with
    | false =>
      simp only [hc, Bool.false_eq_true, if_false]
      have h1 := ih a
      unfold fieldPriority at h1
      exact h1
    | true =>
      simp only [hc, if_true]
      have h1 := ih (max a kp.2)
      have h2 := ih (max 0 kp.2)
      unfold fieldPriority at h1 h2
      rw [h1, h2]
      simp [max_assoc]

lemma fieldPriority_cons (col : String) (kp : String × Nat) (l : List (String × Nat)) :
    fieldPriority (kp :: l) col =
      max (if containsKW (strLower col) kp.1 then kp.2 else 0) (fieldPriority l col) := by
  unfold fieldPriority
  simp only [List.foldl_cons]
  rw [foldl_max_shift]
  cases hc : containsKW (strLower col) kp.1 <;> simp [hc, fieldPriority]

lemma fieldPriority_eq_zero_iff (kw : List (String × Nat)) (hpos : ∀ kp ∈ kw, 0 < kp.2)
    (col : String) :
    fieldPriority kw col = 0 ↔ hasKeyword kw col = false := by
  induction kw with
  | nil => simp [fieldPriority, hasKeyword]
  | cons kp l ih =>
    have hkp : 0 < kp.2 := hpos kp (List.mem_cons_self kp l)
    have ihl := ih (fun q hq => hpos q (List.mem_cons_of_mem kp hq))
    rw [fieldPriority_cons]
    simp only [hasKeyword, List.any_cons, Bool.or_eq_false_iff]
    rw [Nat.max_eq_zero_iff]
    cases hc : containsKW (strLower col) kp.1 with
    | true => simp [hc, Nat.pos_iff_ne_zero.mp hkp]
    | false => simp [hc, ihl, hasKeyword]

end KozuPick
namespace KozuPick

lemma oazaCandidates_cons (f : String) (rest : List String) :
    oazaCandidates (f :: rest) =
      if f = "geometry" then oazaCandidates rest
      else if fieldPriority oazaKeywords f = 0 then oazaCandidates rest
      else (f, fieldPriority oazaKeywords f) :: oazaCandidates rest := by
  by_cases hf : f = "geometry"
  · simp [oazaCandidates, hf, List.filter_cons]
  · by_cases hp : fieldPriority oazaKeywords f = 0
    · simp [oazaCandidates, hf, hp, List.filter_cons]
    · have hp' : 0 < fieldPriority oazaKeywords f := Nat.pos_of_ne_zero hp
      simp [oazaCandidates, hf, hp, hp', List.filter_cons]

lemma resolveOazaColumn_eq_rec (fields : List String) :
    resolveOazaColumn fields = resolveOazaRec fields := by
  induction fields with
  | nil => rfl
  | cons f rest ih =>
    unfold resolveOazaColumn at ih ⊢
    rw [oazaCandidates_cons]
    by_cases hf : f = "geometry"
    · rw [if_pos hf]
      simp only [resolveOazaRec, if_pos hf]
      exact ih
    · by_cases hp : fieldPriority oazaKeywords f = 0
      · rw [if_neg hf, if_pos hp]
        simp only [resolveOazaRec, if_neg hf, if_pos hp]
        exact ih
      · rw [if_neg hf, if_neg hp]
        simp only [resolveOazaRec, if_neg hf, if_neg hp, pickBest]
        rw [ih]

lemma resolveOazaRec_none_iff (fields : List String) :
    resolveOazaRec fields = none ↔
      ∀ f ∈ fields, f ≠ "geometry" → fieldPriority oazaKeywords f = 0 := by
  induction fields with
  | nil => simp [resolveOazaRec]
  | cons f rest ih =>
    by_cases hf : f = "geometry"
    · rw [resolveOazaRec, if_pos hf, ih]
      constructor
      · intro hall x hx hxg
        rcases List.mem_cons.mp hx with h1 | h2
        · exact absurd (h1.trans hf) hxg
        · exact hall x h2 hxg
      · intro hall x hx hxg
        exact hall x (List.mem_cons_of_mem f hx) hxg
    · by_cases hp : fieldPriority oazaKeywords f = 0
      · rw [resolveOazaRec, if_neg hf, if_pos hp, ih]
        constructor
        · intro hall x hx hxg
          rcases List.mem_cons.mp hx with h1 | h2
          · rw [h1]
            exact hp
          · exact hall x h2 hxg
        · intro hall x hx hxg
          exact hall x (List.mem_cons_of_mem f hx) hxg
      · rw [resolveOazaRec, if_neg hf, if_neg hp]
        cases hrec : resolveOazaRec rest with
        | none =>
          simp only [List.forall_mem_cons]
          constructor
          · intro hcontra
            exact absurd hcontra (by simp)
          · rintro ⟨hclause, -⟩
            exact absurd (hclause hf) hp
        | some y =>
          simp only [List.forall_mem_cons]
          constructor
          · intro hcontra
            have hcontra' : (if fieldPriority oazaKeywords f < y.2 then some y
                else some (f, fieldPriority oazaKeywords f)) = none := hcontra
            split at hcontra' <;> simp at hcontra'
          · rintro ⟨hclause, -⟩
            exact absurd (hclause hf) hp

lemma resolveOazaRec_some {fields : List String} {c : String} {p : Nat}
    (h : resolveOazaRec fields = some (c, p)) :
    c ∈ fields ∧ c ≠ "geometry" ∧ p = fieldPriority oazaKeywords c ∧ 0 < p ∧
    (∀ f ∈ fields, f ≠ "geometry" → fieldPriority oazaKeywords f ≤ p) ∧
    ∃ pre suf, fields = pre ++ c :: suf ∧
      ∀ f ∈ pre, f ≠ "geometry" → fieldPriority oazaKeywords f < p := by
  induction fields generalizing c p with
  | nil => simp [resolveOazaRec] at h
  | cons f rest ih =>
    by_cases hf : f = "geometry"
    · rw [resolveOazaRec, if_pos hf] at h
      obtain ⟨h1, h2, h3, h4, h5, pre, suf, h6, h7⟩ := ih h
      refine ⟨List.mem_cons_of_mem f h1, h2, h3, h4, ?_, f :: pre, suf,
        by rw [h6, List.cons_append], ?_⟩
      · intro x hx hxg
        rcases List.mem_cons.mp hx with hxf | hxr
        · exact absurd (hxf.trans hf) hxg
        · exact h5 x hxr hxg
      · intro x hx hxg
        rcases List.mem_cons.mp hx with hxf | hxr
        · exact absurd (hxf.trans hf) hxg
        · exact h7 x hxr hxg
    · by_cases hp0 : fieldPriority oazaKeywords f = 0
      · rw [resolveOazaRec, if_neg hf, if_pos hp0] at h
        obtain ⟨h1, h2, h3, h4, h5, pre, suf, h6, h7⟩ := ih h
        refine ⟨List.mem_cons_of_mem f h1, h2, h3, h4, ?_, f :: pre, suf,
          by rw [h6, List.cons_append], ?_⟩
        · intro x hx hxg
          rcases List.mem_cons.mp hx with hxf | hxr
          · rw [hxf, hp0]
            exact Nat.zero_le p
          · exact h5 x hxr hxg
        · intro x hx hxg
          rcases List.mem_cons.mp hx with hxf | hxr
          · rw [hxf, hp0]
            exact h4
          · exact h7 x hxr hxg
      · rw [resolveOazaRec, if_neg hf, if_neg hp0] at h
        cases hrec : resolveOazaRec rest with
        | none =>
          rw [hrec] at h
          rw [Option.some.injEq, Prod.mk.injEq] at h
          obtain ⟨hc, hpv⟩ := h
          subst hc
          subst hpv
          have hnone := (resolveOazaRec_none_iff rest).mp hrec
          refine ⟨List.mem_cons_self _ _, hf, rfl, Nat.pos_of_ne_zero hp0, ?_,
            [], rest, rfl, by simp⟩
          intro x hx hxg
          rcases List.mem_cons.mp hx with hxf | hxr
          · rw [hxf]
          · rw [hnone x hxr hxg]
            exact Nat.zero_le _
        | some y =>
          rw [hrec] at h
          have h' : (if fieldPriority oazaKeywords f < y.2 then some y
              else some (f, fieldPriority oazaKeywords f)) = some (c, p) := h
          by_cases hlt : fieldPriority oazaKeywords f < y.2
          · rw [if_pos hlt] at h'
            have hy : resolveOazaRec rest = some (c, p) := by
              rw [hrec, h']
            obtain ⟨h1, h2, h3, h4, h5, pre, suf, h6, h7⟩ := ih hy
            have hyp : y.2 = p := by rw [Option.some.inj h']
            refine ⟨List.mem_cons_of_mem f h1, h2, h3, h4, ?_, f :: pre, suf,
              by rw [h6, List.cons_append], ?_⟩
            · intro x hx hxg
              rcases List.mem_cons.mp hx with hxf | hxr
              · rw [hxf]
                rw [hyp] at hlt
                exact Nat.le_of_lt hlt
              · exact h5 x hxr hxg
            · intro x hx hxg
              rcases List.mem_cons.mp hx with hxf | hxr
              · rw [hxf]
                rw [hyp] at hlt
                exact hlt
              · exact h7 x hxr hxg
          · rw [if_neg hlt] at h'
            rw [Option.some.injEq, Prod.mk.injEq] at h'
            obtain ⟨hc, hpv⟩ := h'
            subst hc
            subst hpv
            obtain ⟨h1, h2, h3, h4, h5, pre, suf, h6, h7⟩ :=
              ih (show resolveOazaRec rest = some (y.1, y.2) by simpa using hrec)
            refine ⟨List.mem_cons_self _ _, hf, rfl, Nat.pos_of_ne_zero hp0, ?_,
              [], rest, rfl, by simp⟩
            intro x hx hxg
            rcases List.mem_cons.mp hx with hxf | hxr
            · rw [hxf]
            · exact Nat.le_trans (h5 x hxr hxg) (Nat.le_of_not_lt hlt)

end KozuPick
namespace KozuPick

lemma dsW_inter1_w1 :
    rectIntersects (searchRect (centroid ⟨0, 0, 1, 1⟩) 1) ⟨0, 0, 1, 1⟩ = true := by
  rw [rectIntersects_iff]
  norm_num [searchRect, centroid]

lemma dsW_inter1_w2 :
    rectIntersects (searchRect (centroid ⟨0, 0, 1, 1⟩) 1) ⟨100, 100, 101, 101⟩ = false := by
  rw [Bool.eq_false_iff, ne_eq, rectIntersects_iff]
  norm_num [searchRect, centroid]

lemma dsW_inter1_w3 :
    rectIntersects (searchRect (centroid ⟨0, 0, 1, 1⟩) 1) ⟨1, 1, 2, 2⟩ = true := by
  rw [rectIntersects_iff]
  norm_num [searchRect, centroid]

lemma dsW_inter200_w1 :
    rectIntersects (searchRect (centroid ⟨0, 0, 1, 1⟩) 200) ⟨0, 0, 1, 1⟩ = true := by
  rw [rectIntersects_iff]
  norm_num [searchRect, centroid]

lemma dsW_inter200_w2 :
    rectIntersects (searchRect (centroid ⟨0, 0, 1, 1⟩) 200) ⟨100, 100, 101, 101⟩ = true := by
  rw [rectIntersects_iff]
  norm_num [searchRect, centroid]

lemma dsW_inter200_w3 :
    rectIntersects (searchRect (centroid ⟨0, 0, 1, 1⟩) 200) ⟨1, 1, 2, 2⟩ = true := by
  rw [rectIntersects_iff]
  norm_num [searchRect, centroid]

lemma dsW_eval1 :
    extractData dsW "A" none none "5" 1 = .ok [wRow1, wRow2] [wRow1, wRow3] (countSummary 2 2) := by
  have h2 : neighborsList dsW (centroid ⟨0, 0, 1, 1⟩) 1 = [wRow1, wRow3] := by
    simp [neighborsList, validData, dsW, wRow1, wRow2, wRow3, wRow4, List.filter,
      dsW_inter1_w1, dsW_inter1_w2, dsW_inter1_w3]
  have hfilt : dsW.rows.filter (searchCondition dsW "A" none none "5") = [wRow1, wRow2] := by
    decide
  rw [extractData_ok_of (by decide) hfilt (by decide) (by decide)
    (show wRow1.geometry = some ⟨0, 0, 1, 1⟩ from rfl) (by decide), h2]
  rfl

lemma dsW_eval200 :
    extractData dsW "A" none none "5" 200 =
      .ok [wRow1, wRow2] [wRow1, wRow2, wRow3] (countSummary 2 3) := by
  have h2 : neighborsList dsW (centroid ⟨0, 0, 1, 1⟩) 200 = [wRow1, wRow2, wRow3] := by
    simp [neighborsList, validData, dsW, wRow1, wRow2, wRow3, wRow4, List.filter,
      dsW_inter200_w1, dsW_inter200_w2, dsW_inter200_w3]
  have hfilt : dsW.rows.filter (searchCondition dsW "A" none none "5") = [wRow1, wRow2] := by
    decide
  rw [extractData_ok_of (by decide) hfilt (by decide) (by decide)
    (show wRow1.geometry = some ⟨0, 0, 1, 1⟩ from rfl) (by decide), h2]
  rfl

lemma dsC4_eval_raw :
    extractData dsC4 "21" none none "100" 1 = .ok [c4Row] [c4Row] (countSummary 1 1) := by
  have h2 : neighborsList dsC4 (centroid ⟨0, 0, 1, 1⟩) 1 = [c4Row] := by
    simp [neighborsList, validData, dsC4, c4Row, List.filter, dsW_inter1_w1]
  have hfilt : dsC4.rows.filter (searchCondition dsC4 "21" none none "100") = [c4Row] := by
    decide
  rw [extractData_ok_of (by decide) hfilt (by decide) (by decide)
    (show c4Row.geometry = some ⟨0, 0, 1, 1⟩ from rfl) (by decide), h2]
  rfl

end KozuPick
namespace KozuPick

/-- C1 (counterexample): the claim fails as stated.  In `dsW` the parcel
`wRow2` is matchable (non-null 大字名, 地番 and geometry); querying its own
address `("A", 地番 "5")` with `range_m = 1 > 0` succeeds, yet the neighbor
set `[wRow1, wRow3]` does not contain `wRow2`: the window is centered on the
first match `wRow1`, far from `wRow2`. -/
theorem c1_self_inclusion_cex :
    extractData dsW "A" none none "5" 1 =
      .ok [wRow1, wRow2] [wRow1, wRow3] (countSummary 2 2) ∧
    wRow2 ∉ ([wRow1, wRow3] : List Row) :=
  ⟨dsW_eval1, by decide⟩

/-- C1 (amended): in a successful extraction with `range_m > 0`, the FIRST
matched parcel — the one whose centroid centers the window — is always in the
neighbor set, provided its geometry has positive extent in both axes; matched
parcels other than the first need not be included. -/
theorem c1_first_target_in_neighbors {gdf : GeoDataFrame} {oaza : String}
    {chome koaza : Option String} {chiban : String} {rangeM : ℚ}
    {r0 : Row} {rest n : List Row} {s : String} {g0 : Rect}
    (h : extractData gdf oaza chome koaza chiban rangeM = .ok (r0 :: rest) n s)
    (hg : r0.geometry = some g0) (hx : g0.x1 < g0.x2) (hy : g0.y1 < g0.y2)
    (hr : 0 < rangeM) : r0 ∈ n := by
  obtain ⟨-, ht, -, -, -, r0', rest', g0', htc, hg', hn, -⟩ := extractData_ok_inv h
  have hr0 : r0' = r0 := ((List.cons.inj htc).1).symm
  rw [hr0] at hg'
  have hg0 : g0' = g0 := Option.some.inj (hg'.symm.trans hg)
  rw [hn, hg0, neighborsList, List.mem_filter]
  constructor
  · rw [validData, List.mem_filter]
    have hmem : r0 ∈ gdf.rows.filter (searchCondition gdf oaza chome koaza chiban) := by
      rw [← ht]
      exact List.mem_cons_self r0 rest
    refine ⟨List.mem_of_mem_filter hmem, ?_⟩
    obtain ⟨-, hcb, -⟩ := searchCondition_iff.mp (List.of_mem_filter hmem)
    simp [hcb, hg]
  · rw [hg]
    exact rectIntersects_self hx hy hr

/-- C1 (witness for the amended theorem): in the concrete run on `dsW`, the
first matched parcel `wRow1` is in the neighbor set. -/
theorem c1_first_target_in_neighbors_witness : wRow1 ∈ ([wRow1, wRow3] : List Row) :=
  c1_first_target_in_neighbors dsW_eval1 (show wRow1.geometry = some ⟨0, 0, 1, 1⟩ from rfl)
    (by norm_num) (by norm_num) (by norm_num)

/-- C2: a row is a target exactly when it belongs to the dataset, its 大字名
equals the queried district and its 地番 equals the queried parcel number
(both therefore non-null), with the 丁目名 (resp. 小字名) equality conjoined
iff the query value is supplied, differs from the sentinel `"選択なし"`, and
the column exists in the dataset. -/
theorem c2_target_selection {gdf : GeoDataFrame} {oaza : String} {chome koaza : Option String}
    {chiban : String} {rangeM : ℚ} {t n : List Row} {s : String}
    (h : extractData gdf oaza chome koaza chiban rangeM = .ok t n s) (x : Row) :
    x ∈ t ↔ (x ∈ gdf.rows ∧ x.oaza = some oaza ∧ x.chiban = some chiban ∧
      optQueryPred chome gdf.hasChomeCol x.chome ∧
      optQueryPred koaza gdf.hasKoazaCol x.koaza) := by
  obtain ⟨-, ht, -⟩ := extractData_ok_inv h
  rw [ht, List.mem_filter, searchCondition_iff]

/-- C2 (witness): the non-matching row `wRow3` of the concrete run. -/
theorem c2_target_selection_witness :
    wRow3 ∈ ([wRow1, wRow2] : List Row) ↔
      (wRow3 ∈ dsW.rows ∧ wRow3.oaza = some "A" ∧ wRow3.chiban = some "5" ∧
        optQueryPred none dsW.hasChomeCol wRow3.chome ∧
        optQueryPred none dsW.hasKoazaCol wRow3.koaza) :=
  c2_target_selection dsW_eval1 wRow3

/-- C3: for a centroid `(x, y)` and any `range_m ≥ 0`, the window polygon
built by `extract_data` (the convex hull of the four swap-constructed corner
points) is exactly the axis-aligned square with opposite corners
`(x − range_m, y − range_m)` and `(x + range_m, y + range_m)`, which is also
the point set of `searchRect` as used in the overlay. -/
theorem c3_window_eq_square (x y rangeM : ℚ) (h : 0 ≤ rangeM) :
    windowHull x y rangeM =
      Set.Icc (x - rangeM) (x + rangeM) ×ˢ Set.Icc (y - rangeM) (y + rangeM) ∧
    rectSet (searchRect (x, y) rangeM) =
      Set.Icc (x - rangeM) (x + rangeM) ×ˢ Set.Icc (y - rangeM) (y + rangeM) := by
  constructor
  · have hpts : {p : ℚ × ℚ | p ∈ windowPoints x y rangeM} =
        (({x - rangeM, x + rangeM} : Set ℚ) ×ˢ ({y - rangeM, y + rangeM} : Set ℚ)) := by
      ext ⟨a, b⟩
      simp [windowPoints, Prod.ext_iff]
      tauto
    rw [windowHull, hpts, convexHull_prod, convexHull_pair, convexHull_pair,
      segment_eq_Icc (by linarith : x - rangeM ≤ x + rangeM),
      segment_eq_Icc (by linarith : y - rangeM ≤ y + rangeM)]
  · rfl

/-- C3 (witness): the window at the origin with half-width 1. -/
theorem c3_window_eq_square_witness :
    windowHull 0 0 1 =
      Set.Icc ((0 : ℚ) - 1) (0 + 1) ×ˢ Set.Icc ((0 : ℚ) - 1) (0 + 1) ∧
    rectSet (searchRect (0, 0) 1) =
      Set.Icc ((0 : ℚ) - 1) (0 + 1) ×ˢ Set.Icc ((0 : ℚ) - 1) (0 + 1) :=
  c3_window_eq_square 0 0 1 (by norm_num)

end KozuPick
namespace KozuPick

/-- C4: the claim fails on the code — `extract_data` performs no
normalization.  The code's own normalization maps the stored district code
`"21"` to `"大山"` (and the application's area selector presents exactly that
normalized name), yet querying `extract_data` with `"大山"` finds nothing
(district match count 0), while only the raw, un-normalized code `"21"`
matches. -/
theorem c4_no_normalization_in_matching :
    normalizeAreaName "21" = "大山" ∧
    extractData dsC4 "大山" none none "100" 1 = .err (.noMatch ⟨0, 1, none, none⟩) ∧
    extractData dsC4 "21" none none "100" 1 = .ok [c4Row] [c4Row] (countSummary 1 1) :=
  ⟨by decide, by decide, dsC4_eval_raw⟩

/-- C5: whenever `extract_data` reports no match, the diagnostics give, for
大字名 and 地番, exactly the number of dataset rows matching that one field
alone, and likewise for 丁目名/小字名 when they were queried (truthy,
non-sentinel value with the column present). -/
theorem c5_diagnostics_exact {gdf : GeoDataFrame} {oaza : String} {chome koaza : Option String}
    {chiban : String} {rangeM : ℚ} {d : Diagnostics}
    (h : extractData gdf oaza chome koaza chiban rangeM = .err (.noMatch d)) :
    d.oazaMatches = (gdf.rows.filter (fun x => x.oaza == some oaza)).length ∧
    d.chibanMatches = (gdf.rows.filter (fun x => x.chiban == some chiban)).length ∧
    diagClause chome gdf.hasChomeCol d.chomeMatches
      (fun v => (gdf.rows.filter (fun x => x.chome == some v)).length) ∧
    diagClause koaza gdf.hasKoazaCol d.koazaMatches
      (fun v => (gdf.rows.filter (fun x => x.koaza == some v)).length) := by
  obtain ⟨hd, -, -⟩ := extractData_noMatch_inv h
  subst hd
  refine ⟨?_, ?_, ?_, ?_⟩
  · simp only [mkDiagnostics]
    exact eqCountNonNull_map gdf.rows (·.oaza) oaza
  · simp only [mkDiagnostics]
    exact eqCountNonNull_map gdf.rows (·.chiban) chiban
  · cases chome with
    | none => simp [diagClause, mkDiagnostics, truthy]
    | some v =>
      rintro ⟨hv, hvs, hcol⟩
      simp only [mkDiagnostics]
      rw [if_pos (by simp [truthy, hv, hvs, hcol])]
      simp only [Option.getD_some, Option.some.injEq]
      exact eqCountNonNull_map gdf.rows (·.chome) v
  · cases koaza with
    | none => simp [diagClause, mkDiagnostics, truthy]
    | some v =>
      rintro ⟨hv, hvs, hcol⟩
      simp only [mkDiagnostics]
      rw [if_pos (by simp [truthy, hv, hvs, hcol])]
      simp only [Option.getD_some, Option.some.injEq]
      exact eqCountNonNull_map gdf.rows (·.koaza) v

/-- C5 (witness): a dataset with one row matching only the district and one
matching only the parcel number; diagnostics report exactly 1 and 1. -/
theorem c5_diagnostics_exact_witness :
    (Diagnostics.mk 1 1 none none).oazaMatches =
      (dsC5.rows.filter (fun x => x.oaza == some "01")).length ∧
    (Diagnostics.mk 1 1 none none).chibanMatches =
      (dsC5.rows.filter (fun x => x.chiban == some "100")).length ∧
    diagClause none dsC5.hasChomeCol (Diagnostics.mk 1 1 none none).chomeMatches
      (fun v => (dsC5.rows.filter (fun x => x.chome == some v)).length) ∧
    diagClause none dsC5.hasKoazaCol (Diagnostics.mk 1 1 none none).koazaMatches
      (fun v => (dsC5.rows.filter (fun x => x.koaza == some v)).length) :=
  c5_diagnostics_exact (show extractData dsC5 "01" none none "100" 1 =
    .err (.noMatch ⟨1, 1, none, none⟩) by decide)

/-- C6: with the dataset, query and matched targets fixed, enlarging the
search half-width from `r1` to `r2 > r1 > 0` keeps the targets identical and
only enlarges the neighbor set. -/
theorem c6_neighbors_monotone {gdf : GeoDataFrame} {oaza : String} {chome koaza : Option String}
    {chiban : String} {r1 r2 : ℚ} {t1 t2 n1 n2 : List Row} {s1 s2 : String}
    (_hr1 : 0 < r1) (hr12 : r1 < r2)
    (h1 : extractData gdf oaza chome koaza chiban r1 = .ok t1 n1 s1)
    (h2 : extractData gdf oaza chome koaza chiban r2 = .ok t2 n2 s2) :
    t2 = t1 ∧ ∀ x ∈ n1, x ∈ n2 := by
  obtain ⟨-, ht1, -, -, -, r0, rest, g0, htc1, hg1, hn1, -⟩ := extractData_ok_inv h1
  obtain ⟨-, ht2, -, -, -, r0', rest', g0', htc2, hg2, hn2, -⟩ := extractData_ok_inv h2
  have htt : t2 = t1 := by rw [ht2, ht1]
  refine ⟨htt, ?_⟩
  have hcc : r0 :: rest = r0' :: rest' := by
    rw [← htc1, ← htt, htc2]
  have hr0 : r0' = r0 := ((List.cons.inj hcc).1).symm
  rw [hr0] at hg2
  have hg0 : g0' = g0 := Option.some.inj (hg2.symm.trans hg1)
  rw [hn1, hn2, hg0]
  exact neighborsList_mono (le_of_lt hr12)

/-- C6 (witness): on the concrete run, the `range_m = 1` neighbor set is
contained in the `range_m = 200` one. -/
theorem c6_neighbors_monotone_witness :
    ([wRow1, wRow2] : List Row) = [wRow1, wRow2] ∧
    ∀ x ∈ ([wRow1, wRow3] : List Row), x ∈ ([wRow1, wRow2, wRow3] : List Row) :=
  c6_neighbors_monotone (by norm_num) (by norm_num) dsW_eval1 dsW_eval200

/-- C7: on success, the returned target set is the full filtered match list,
while the neighbor set is computed from the window centered on the centroid
of only the FIRST matched row's geometry. -/
theorem c7_first_centroid_window {gdf : GeoDataFrame} {oaza : String} {chome koaza : Option String}
    {chiban : String} {rangeM : ℚ} {t n : List Row} {s : String}
    (h : extractData gdf oaza chome koaza chiban rangeM = .ok t n s) :
    t = gdf.rows.filter (searchCondition gdf oaza chome koaza chiban) ∧
    ∃ r0 rest g0, t = r0 :: rest ∧ r0.geometry = some g0 ∧
      n = neighborsList gdf (centroid g0) rangeM := by
  obtain ⟨-, ht, -, -, -, r0, rest, g0, htc, hg, hn, -⟩ := extractData_ok_inv h
  exact ⟨ht, r0, rest, g0, htc, hg, hn⟩

/-- C7 (witness): the concrete run matches two rows; the window comes from
the first one's centroid. -/
theorem c7_first_centroid_window_witness :
    ([wRow1, wRow2] : List Row) = dsW.rows.filter (searchCondition dsW "A" none none "5") ∧
    ∃ r0 rest g0, ([wRow1, wRow2] : List Row) = r0 :: rest ∧ r0.geometry = some g0 ∧
      ([wRow1, wRow3] : List Row) = neighborsList dsW (centroid g0) 1 :=
  c7_first_centroid_window dsW_eval1

/-- C8 (counterexample): the claim fails as stated.  In `dsC8` the record
`c8RowNull` satisfies the address filter but has null geometry; instead of
excluding it and returning the other matching record `c8RowOk`, the whole
extraction aborts with an error and returns no records. -/
theorem c8_null_geometry_aborts_cex :
    extractData dsC8 "A" none none "1" 1 = .err .nullGeometry := by
  decide

/-- C8 (amended): a matched record with null geometry aborts the whole
extraction; in any SUCCESSFUL extraction, no record with null 地番 or null
geometry appears in the targets or in the neighbors. -/
theorem c8_null_exclusion {gdf : GeoDataFrame} {oaza : String} {chome koaza : Option String}
    {chiban : String} {rangeM : ℚ} {t n : List Row} {s : String}
    (h : extractData gdf oaza chome koaza chiban rangeM = .ok t n s) :
    (∀ x ∈ t, x.chiban.isSome = true ∧ x.geometry.isSome = true) ∧
    (∀ x ∈ n, x.chiban.isSome = true ∧ x.geometry.isSome = true) := by
  obtain ⟨-, ht, -, hnull, -, r0, rest, g0, htc, hg, hn, -⟩ := extractData_ok_inv h
  constructor
  · intro x hx
    constructor
    · have hx' := hx
      rw [ht] at hx'
      obtain ⟨-, hcb, -⟩ := searchCondition_iff.mp (List.of_mem_filter hx')
      simp [hcb]
    · cases hgx : x.geometry with
      | some g => simp
      | none =>
        exfalso
        have : t.any (fun x => x.geometry.isNone) = true :=
          List.any_eq_true.mpr ⟨x, hx, by simp [hgx]⟩
        rw [hnull] at this
        exact Bool.false_ne_true this
  · intro x hx
    rw [hn, neighborsList, List.mem_filter] at hx
    have hv := hx.1
    rw [validData, List.mem_filter] at hv
    simpa [Bool.and_eq_true] using hv.2

/-- C8 (witness for the amended theorem): null exclusion on the concrete
successful run. -/
theorem c8_null_exclusion_witness :
    (∀ x ∈ ([wRow1, wRow2] : List Row), x.chiban.isSome = true ∧ x.geometry.isSome = true) ∧
    (∀ x ∈ ([wRow1, wRow3] : List Row), x.chiban.isSome = true ∧ x.geometry.isSome = true) :=
  c8_null_exclusion dsW_eval1

/-- C9: district-column resolution scores every non-geometry field by the
maximum priority of the keywords occurring in its lower-cased name, picks the
single best field (highest priority, earlier column wins ties), and returns
`none` rather than guessing when no field name contains any keyword. -/
theorem c9_district_column_resolution (fields : List String) :
    (resolveOazaColumn fields = none ↔
      ∀ f ∈ fields, f ≠ "geometry" → hasKeyword oazaKeywords f = false) ∧
    (∀ c p, resolveOazaColumn fields = some (c, p) →
      c ∈ fields ∧ c ≠ "geometry" ∧ p = fieldPriority oazaKeywords c ∧ 0 < p ∧
      (∀ f ∈ fields, f ≠ "geometry" → fieldPriority oazaKeywords f ≤ p) ∧
      ∃ pre suf, fields = pre ++ c :: suf ∧
        ∀ f ∈ pre, f ≠ "geometry" → fieldPriority oazaKeywords f < p) := by
  have hpos : ∀ kp ∈ oazaKeywords, 0 < kp.2 := by decide
  constructor
  · rw [resolveOazaColumn_eq_rec, resolveOazaRec_none_iff]
    constructor
    · intro hall f hf hfg
      rw [← fieldPriority_eq_zero_iff oazaKeywords hpos]
      exact hall f hf hfg
    · intro hall f hf hfg
      rw [fieldPriority_eq_zero_iff oazaKeywords hpos]
      exact hall f hf hfg
  · intro c p hcp
    rw [resolveOazaColumn_eq_rec] at hcp
    exact resolveOazaRec_some hcp

/-- C10: `extract_data` always returns a triple: either a non-empty target
frame, a neighbor frame and the count-summary string, or an error value (the
`(None, None, message)` returns and the blanket exception handler). -/
theorem c10_total_result (gdf : GeoDataFrame) (oaza : String) (chome koaza : Option String)
    (chiban : String) (rangeM : ℚ) :
    (∃ t n s, extractData gdf oaza chome koaza chiban rangeM = .ok t n s ∧ t ≠ [] ∧
      s = countSummary t.length n.length) ∨
    (∃ e, extractData gdf oaza chome koaza chiban rangeM = .err e) := by
  cases hE : extractData gdf oaza chome koaza chiban rangeM with
  | ok t n s =>
    left
    obtain ⟨-, -, -, -, -, r0, rest, -, htc, -, -, hs⟩ := extractData_ok_inv hE
    exact ⟨t, n, s, rfl, by simp [htc], hs⟩
  | err e =>
    right
    exact ⟨e, rfl⟩

end KozuPick
